import Mathlib

/-!
# Verification of the budget subsystem (`app/services/budget_service.py`)

Shallow embedding of the budget lifecycle and aggregation logic of the
personal-finance API, together with proofs about it.

Modelling conventions, in order of appearance in the source:

* Monetary values (`Numeric(12, 2)` columns read into Python `Decimal`s) are
  embedded as exact rationals `ℚ`.  Python's `decimal` arithmetic runs under
  the default context: 28 significant digits, `ROUND_HALF_EVEN`.  Addition and
  subtraction of currency amounts at the scale the data model declares
  (`Numeric(12, 2)`, i.e. at most 12 digits) never reach the 28-digit
  precision bound, so they are embedded as exact `+` and `-`; division and
  multiplication do reach it (`yearly_amount / 12` is the central case) and
  are embedded as `decDiv` / `decMul`, which round the exact result to 28
  significant digits, ties to even, exactly as the context does.
* Python `float(...)` conversions are embedded as `roundFloat`, rounding an
  exact rational to the nearest IEEE binary64 value (53-bit significand, ties
  to even); output fields holding floats hold the rounded rational.
* `uuid.uuid4()` values are embedded as `ℕ` identifiers supplied as explicit
  arguments to the operations that generate them.
* The ORM session/flush/commit cycle against the store: a mutation builds the
  updated table state and commits it.  The commit enforces the declared
  table constraints (primary keys, `Budget.year` `unique=True`, and the
  `unique_budget_category` constraint of `models/budget.py`); a violating
  commit raises, the transaction rolls back, and the persistent state is
  unchanged — modelled by returning the failure sentinel with the old state.
  The store itself is otherwise treated as faithful per the spec's view of
  the Ledger Store as an external collaborator; column-scale quantization is
  not modelled.
* SQL `SUM` aggregates over `Numeric` are exact, and `... .scalar() or
  Decimal('0')` turns an empty aggregate into 0 — embedded as `List.sum`
  (sum of the empty list is 0, and a present zero row is unchanged by `or`).
  Grouped aggregates (`GROUP BY category`) are embedded as one row per
  category of the category table; a category whose group is absent in SQL
  corresponds to a row summing to 0, and both make the service's
  look-up-with-default produce 0, so the observable results agree.
* The `datetime` values only ever reach the service through
  `extract('year', ...)` and `extract('month', ...)`, so transaction dates
  are embedded as their year and month.  `created_at` / `updated_at` columns
  are never read by the service and are omitted.

The Python accumulations `ytd_income_budget += ytd_amount` /
`ytd_expense_budget += ytd_amount` in `get_dashboard_data` are embedded as
exact sums; the context's 28-digit rounding of those running sums can touch
digits beyond the 16 significant digits that survive the final `float()`
conversion, which no statement below depends on.
-/

/-! ## Numeric kernel -/

/-- Floor of log base `b` of `n` (for `n ≥ 1`), fuel-driven so that the kernel
can reduce it on literals. -/
def logFuel (b : Nat) : Nat → Nat → Nat
  | 0, _ => 0
  | fuel + 1, n => if n < b then 0 else logFuel b fuel (n / b) + 1

/-- Least `k` such that `a * b^k ≥ c` (for `a ≥ 1`), fuel-driven. -/
def upFuel (b : Nat) : Nat → Nat → Nat → Nat
  | 0, _, _ => 0
  | fuel + 1, a, c => if c ≤ a then 0 else upFuel b fuel (a * b) c + 1

/-- Floor of the log base `b` of a positive rational `q`, as an integer. -/
def ratLogFloor (b : Nat) (q : ℚ) : ℤ :=
  let a := q.num.natAbs
  let d := q.den
  if d ≤ a then (logFuel b (a / d) (a / d) : ℤ) else -(upFuel b d a d : ℤ)

/-- `b ^ k` in `ℚ` for an integer exponent `k`. -/
def zpowN (b : ℚ) (k : ℤ) : ℚ :=
  if 0 ≤ k then b ^ k.toNat else 1 / b ^ (-k).toNat

/-- Round a rational to the nearest integer, ties to even. -/
def roundHalfEven (x : ℚ) : ℤ :=
  let n := x.floor
  let frac := x - (n : ℚ)
  if frac < 1 / 2 then n
  else if 1 / 2 < frac then n + 1
  else if n % 2 = 0 then n else n + 1

/-- Round `q` keeping `prec` significant decimal digits, ties to even: the
value delivered by an arithmetic operation under Python's `decimal` context
with precision `prec` and rounding `ROUND_HALF_EVEN`. -/
def sigRound (prec : Nat) (q : ℚ) : ℚ :=
  if q = 0 then 0
  else
    let e := ratLogFloor 10 |q|
    let k := (prec : ℤ) - 1 - e
    (roundHalfEven (q * zpowN 10 k) : ℚ) / zpowN 10 k

/-- Python `Decimal` division under the default context (28 significant
digits, `ROUND_HALF_EVEN`): the exact quotient, correctly rounded. -/
def decDiv (x y : ℚ) : ℚ := sigRound 28 (x / y)

/-- Python `Decimal` multiplication under the default context: the exact
product, correctly rounded to 28 significant digits. -/
def decMul (x y : ℚ) : ℚ := sigRound 28 (x * y)

/-- Conversion of an exact rational to the nearest IEEE binary64 value
(Python `float(...)` on a `Decimal`): 53-bit significand, round to nearest,
ties to even.  Overflow and subnormals do not arise at the magnitudes
evaluated here. -/
def roundFloat (q : ℚ) : ℚ :=
  if q = 0 then 0
  else
    let e := ratLogFloor 2 |q|
    let k := 52 - e
    (roundHalfEven (q * zpowN 2 k) : ℚ) / zpowN 2 k

/-! ## Data model (`app/models/budget.py`, `category.py`, `transaction.py`) -/

/-- A row of the `budgets` table.  `total_amount` is `Numeric(12, 2)`;
`year` carries `unique=True`. -/
structure Budget where
  id : ℕ
  year : ℤ
  name : String
  total_amount : ℚ
  is_active : Bool
deriving DecidableEq

/-- A row of the `budget_line_items` table, with the
`UniqueConstraint('budget_id', 'category_id')` of its `__table_args__`
enforced at commit time. -/
structure BudgetLineItem where
  id : ℕ
  budget_id : ℕ
  category_id : ℕ
  yearly_amount : ℚ
  monthly_amount : ℚ
deriving DecidableEq

/-- A row of the `categories` table (`type` is `"INCOME"` or `"EXPENSE"`;
`color` is never read by the budget service and is omitted). -/
structure Category where
  id : ℕ
  name : String
  type : String
deriving DecidableEq

/-- A transaction date, as consumed through `extract('year', ...)` and
`extract('month', ...)`. -/
structure TDate where
  year : ℤ
  month : ℤ
deriving DecidableEq

/-- A row of the `transactions` table, restricted to the columns the budget
service reads. -/
structure Transaction where
  id : ℕ
  category_id : ℕ
  amount : ℚ
  transaction_date : TDate
  type : String
deriving DecidableEq

/-- The table state the budget service operates against. -/
structure DB where
  budgets : List Budget
  line_items : List BudgetLineItem
  categories : List Category
  transactions : List Transaction
deriving DecidableEq

/-! ## Request schemas (`app/schemas/budget.py`) -/

/-- `BudgetLineItemCreate`: a validated line-item payload. -/
structure BudgetLineItemCreate where
  category_id : ℕ
  yearly_amount : ℚ
deriving DecidableEq

/-- `BudgetLineItemUpdate`: partial update, `none` meaning "field not set"
(the `dict(exclude_unset=True)` reading). -/
structure BudgetLineItemUpdate where
  category_id : Option ℕ
  yearly_amount : Option ℚ
deriving DecidableEq

/-- `BudgetCreate`. -/
structure BudgetCreate where
  year : ℤ
  name : String
  line_items : List BudgetLineItemCreate
deriving DecidableEq

/-- `BudgetUpdate`: partial update of budget fields. -/
structure BudgetUpdate where
  year : Option ℤ
  name : Option String
  is_active : Option Bool
deriving DecidableEq

/-! ## Store constraints and helpers -/

/-- The table constraints the commit enforces: primary-key uniqueness for
budgets and line items, `Budget.year` uniqueness, and the
`unique_budget_category` constraint on `(budget_id, category_id)`. -/
def commitOK (db : DB) : Prop :=
  (db.budgets.map (·.id)).Nodup ∧
  (db.budgets.map (·.year)).Nodup ∧
  (db.line_items.map (·.id)).Nodup ∧
  (db.line_items.map (fun it => (it.budget_id, it.category_id))).Nodup

instance (db : DB) : Decidable (commitOK db) := by
  unfold commitOK
  infer_instance

/-- The `budget.line_items` ORM relationship: the line items belonging to a
budget id. -/
def lineItemsOf (db : DB) (bid : ℕ) : List BudgetLineItem :=
  db.line_items.filter (fun it => it.budget_id == bid)

/-- The `line_item.category` ORM relationship: resolve a category id against
the category table. -/
def lookupCategory (db : DB) (cid : ℕ) : Option Category :=
  db.categories.find? (fun c => c.id == cid)

/-- Sum of the `yearly_amount` column over a list of line items. -/
def sumYearly (items : List BudgetLineItem) : ℚ :=
  (items.map (·.yearly_amount)).sum

/-! ## Budget lifecycle operations (`BudgetService`)

Each mutation returns its Python return value together with the table state
after the call.  `commit` raising on a constraint violation (rollback, no
persisted change) is modelled by returning the absent/failure sentinel with
the unchanged state. -/

/-- `BudgetService.get_budget_by_id`. -/
def get_budget_by_id (db : DB) (budget_id : ℕ) : Option Budget :=
  db.budgets.find? (fun b => b.id == budget_id)

/-- `BudgetService.get_budget_by_year`. -/
def get_budget_by_year (db : DB) (year : ℤ) : Option Budget :=
  db.budgets.find? (fun b => b.year == year)

/-- `BudgetService.get_active_budget`. -/
def get_active_budget (db : DB) : Option Budget :=
  db.budgets.find? (fun b => b.is_active)

/-- The line-item rows the `create_budget` loop builds for its payload:
one row per entry, with the generated id, the parent budget id, and the
derived `monthly_amount`. -/
def createItems (itemId : ℕ → ℕ) (bid : ℕ) (items : List BudgetLineItemCreate) :
    List BudgetLineItem :=
  items.enum.map (fun p =>
    { id := itemId p.1, budget_id := bid, category_id := p.2.category_id
      yearly_amount := p.2.yearly_amount
      monthly_amount := decDiv p.2.yearly_amount 12 })

/-- `BudgetService.create_budget`.  `bid` and `itemId` stand for the
`uuid.uuid4()` values generated for the budget and for the line item at each
index. -/
def create_budget (db : DB) (bid : ℕ) (itemId : ℕ → ℕ) (budget_data : BudgetCreate) :
    Option Budget × DB :=
  let total_amount := (budget_data.line_items.map (·.yearly_amount)).sum
  let db_budget : Budget :=
    { id := bid, year := budget_data.year, name := budget_data.name
      total_amount := total_amount, is_active := true }
  let newItems := createItems itemId bid budget_data.line_items
  let db' : DB := { db with budgets := db.budgets ++ [db_budget]
                            line_items := db.line_items ++ newItems }
  if commitOK db' then (some db_budget, db') else (none, db)

/-- The field-by-field application of a `BudgetUpdate`
(`for field, value in update_data.items(): setattr(...)`). -/
def applyBudgetUpdate (b : Budget) (d : BudgetUpdate) : Budget :=
  let b1 := match d.year with | some y => { b with year := y } | none => b
  let b2 := match d.name with | some n => { b1 with name := n } | none => b1
  match d.is_active with | some a => { b2 with is_active := a } | none => b2

/-- `BudgetService.update_budget`. -/
def update_budget (db : DB) (budget_id : ℕ) (budget_data : BudgetUpdate) :
    Option Budget × DB :=
  match get_budget_by_id db budget_id with
  | none => (none, db)
  | some b0 =>
    let budgets' := db.budgets.map (fun b =>
      if b.id == budget_id then applyBudgetUpdate b budget_data else b)
    let db' : DB := { db with budgets := budgets' }
    if commitOK db' then (some (applyBudgetUpdate b0 budget_data), db') else (none, db)

/-- `BudgetService.delete_budget`: removes the budget; the
`cascade="all, delete-orphan"` relationship removes its line items. -/
def delete_budget (db : DB) (budget_id : ℕ) : Bool × DB :=
  match get_budget_by_id db budget_id with
  | none => (false, db)
  | some _ =>
    let db' : DB := { db with
      budgets := db.budgets.eraseP (fun b => b.id == budget_id)
      line_items := db.line_items.filter (fun it => !(it.budget_id == budget_id)) }
    if commitOK db' then (true, db') else (false, db)

/-- `BudgetService.add_budget_line_item`.  `newId` stands for the generated
line-item uuid. -/
def add_budget_line_item (db : DB) (newId : ℕ) (budget_id : ℕ)
    (item_data : BudgetLineItemCreate) : Option BudgetLineItem × DB :=
  match get_budget_by_id db budget_id with
  | none => (none, db)
  | some _ =>
    match db.line_items.find? (fun it =>
        it.budget_id == budget_id && it.category_id == item_data.category_id) with
    | some _ => (none, db)  -- category already has a budget line item
    | none =>
      let line_item : BudgetLineItem :=
        { id := newId, budget_id := budget_id, category_id := item_data.category_id
          yearly_amount := item_data.yearly_amount
          monthly_amount := decDiv item_data.yearly_amount 12 }
      let budgets' := db.budgets.map (fun b =>
        if b.id == budget_id then { b with total_amount := b.total_amount + item_data.yearly_amount } else b)
      let db' : DB := { db with budgets := budgets'
                                line_items := db.line_items ++ [line_item] }
      if commitOK db' then (some line_item, db') else (none, db)

/-- The field-by-field application of a `BudgetLineItemUpdate`. -/
def applyLineItemUpdate (it : BudgetLineItem) (d : BudgetLineItemUpdate) : BudgetLineItem :=
  let it1 := match d.category_id with | some c => { it with category_id := c } | none => it
  match d.yearly_amount with | some y => { it1 with yearly_amount := y } | none => it1

/-- `BudgetService.update_budget_line_item`: applies the supplied fields;
when `yearly_amount` is among them it recomputes `monthly_amount` and moves
the parent budget's `total_amount` by the delta. -/
def update_budget_line_item (db : DB) (line_item_id : ℕ) (item_data : BudgetLineItemUpdate) :
    Option BudgetLineItem × DB :=
  match db.line_items.find? (fun it => it.id == line_item_id) with
  | none => (none, db)
  | some it0 =>
    let old_amount := it0.yearly_amount
    let upd := fun (it : BudgetLineItem) =>
      let it' := applyLineItemUpdate it item_data
      if item_data.yearly_amount.isSome then
        { it' with monthly_amount := decDiv it'.yearly_amount 12 }
      else it'
    let items' := db.line_items.map (fun it => if it.id == line_item_id then upd it else it)
    let budgets' :=
      if item_data.yearly_amount.isSome then
        db.budgets.map (fun b =>
          if b.id == it0.budget_id then
            { b with total_amount := b.total_amount - old_amount + (applyLineItemUpdate it0 item_data).yearly_amount }
          else b)
      else db.budgets
    let db' : DB := { db with budgets := budgets', line_items := items' }
    if commitOK db' then (some (upd it0), db') else (none, db)

/-- `BudgetService.delete_budget_line_item`. -/
def delete_budget_line_item (db : DB) (line_item_id : ℕ) : Bool × DB :=
  match db.line_items.find? (fun it => it.id == line_item_id) with
  | none => (false, db)
  | some it0 =>
    let budgets' := db.budgets.map (fun b =>
      if b.id == it0.budget_id then { b with total_amount := b.total_amount - it0.yearly_amount } else b)
    let items' := db.line_items.eraseP (fun it => it.id == line_item_id)
    let db' : DB := { db with budgets := budgets', line_items := items' }
    if commitOK db' then (true, db') else (false, db)

/-- `BudgetService.set_active_budget`: deactivates the first other active
budget of the same year (`.first()`), then activates the target. -/
def set_active_budget (db : DB) (budget_id : ℕ) : Option Budget × DB :=
  match get_budget_by_id db budget_id with
  | none => (none, db)
  | some target =>
    let existing_active := db.budgets.find? (fun b =>
      b.year == target.year && b.is_active && !(b.id == budget_id))
    let budgets1 : List Budget :=
      match existing_active with
      | some ex => db.budgets.map (fun b =>
          if b.id == ex.id then { b with is_active := false } else b)
      | none => db.budgets
    let budgets2 := budgets1.map (fun b =>
      if b.id == budget_id then { b with is_active := true } else b)
    let db' : DB := { db with budgets := budgets2 }
    if commitOK db' then (get_budget_by_id db' budget_id, db') else (none, db)

/-! ## The lifecycle state machine -/

/-- One budget-service mutation, with the ids its Python run draws from
`uuid.uuid4()`. -/
inductive Op where
  | createBudget (bid : ℕ) (itemId : ℕ → ℕ) (budget_data : BudgetCreate)
  | updateBudget (budget_id : ℕ) (budget_data : BudgetUpdate)
  | deleteBudget (budget_id : ℕ)
  | addLineItem (newId : ℕ) (budget_id : ℕ) (item_data : BudgetLineItemCreate)
  | updateLineItem (line_item_id : ℕ) (item_data : BudgetLineItemUpdate)
  | deleteLineItem (line_item_id : ℕ)
  | setActiveBudget (budget_id : ℕ)

/-- The table state after one mutation. -/
def applyOp (db : DB) : Op → DB
  | .createBudget bid itemId d => (create_budget db bid itemId d).2
  | .updateBudget bid d => (update_budget db bid d).2
  | .deleteBudget bid => (delete_budget db bid).2
  | .addLineItem newId bid d => (add_budget_line_item db newId bid d).2
  | .updateLineItem iid d => (update_budget_line_item db iid d).2
  | .deleteLineItem iid => (delete_budget_line_item db iid).2
  | .setActiveBudget bid => (set_active_budget db bid).2

/-- States reachable from an initially empty budget/line-item store by budget
mutations, with the externally owned category and transaction tables allowed
to start and churn arbitrarily. -/
inductive Reachable : DB → Prop where
  | init (cats : List Category) (txs : List Transaction) :
      Reachable ⟨[], [], cats, txs⟩
  | step {db : DB} (op : Op) : Reachable db → Reachable (applyOp db op)
  | external {db : DB} (cats : List Category) (txs : List Transaction) :
      Reachable db → Reachable { db with categories := cats, transactions := txs }

/-! ## Aggregation results (`app/schemas/budget.py` and the result dicts) -/

/-- One entry of `categories_summary` in `get_budget_summary`. -/
structure CategorySummaryRow where
  category_id : ℕ
  category_name : String
  budgeted : ℚ
  spent : ℚ
  remaining : ℚ
  progress_percentage : ℚ
deriving DecidableEq

/-- `BudgetSummary`. -/
structure BudgetSummary where
  budget : Budget
  total_spent : ℚ
  remaining : ℚ
  progress_percentage : ℚ
  categories_summary : List CategorySummaryRow
deriving DecidableEq

/-- One entry of `categories` in `get_monthly_budget_progress`. -/
structure MonthlyCategoryRow where
  category_id : ℕ
  category_name : String
  monthly_budget : ℚ
  spent : ℚ
  remaining : ℚ
  progress_percentage : ℚ
deriving DecidableEq

/-- `MonthlyBudgetProgress`. -/
structure MonthlyBudgetProgress where
  month : ℤ
  year : ℤ
  budgeted_amount : ℚ
  spent_amount : ℚ
  remaining_amount : ℚ
  progress_percentage : ℚ
  categories : List MonthlyCategoryRow
deriving DecidableEq

/-- One category entry of the dashboard dict, after the `ytd_actual` /
`ytd_difference` enrichment pass. -/
structure DashboardCategory where
  id : ℕ
  name : String
  yearly_budget : ℚ
  monthly_budget : ℚ
  ytd_budget : ℚ
  ytd_actual : ℚ
  ytd_difference : ℚ
deriving DecidableEq

/-- The dashboard dict of `get_dashboard_data`. -/
structure DashboardData where
  budget : Budget
  current_month : ℤ
  current_year : ℤ
  ytd_income_budget : ℚ
  ytd_income_actual : ℚ
  ytd_expense_budget : ℚ
  ytd_expense_actual : ℚ
  income_categories : List DashboardCategory
  expense_categories : List DashboardCategory
deriving DecidableEq

/-! ## Aggregation operations -/

/-- `BudgetService.get_budget_summary`. -/
def get_budget_summary (db : DB) (budget_id : ℕ) : Option BudgetSummary :=
  match get_budget_by_id db budget_id with
  | none => none
  | some budget =>
    let total_spent := ((db.transactions.filter (fun t =>
        t.type == "EXPENSE" && t.transaction_date.year == budget.year)).map (·.amount)).sum
    let remaining := budget.total_amount - total_spent
    let progress_percentage : ℚ :=
      if (0 : ℚ) < budget.total_amount then roundFloat (decMul (decDiv total_spent budget.total_amount) 100)
      else 0
    -- `category_spending`: the per-category EXPENSE sums for the year,
    -- one row `(id, name, spent)` per category.
    let category_spending : List (ℕ × String × ℚ) := db.categories.map (fun c =>
      (c.id, c.name, ((db.transactions.filter (fun t =>
          t.category_id == c.id && t.type == "EXPENSE" &&
          t.transaction_date.year == budget.year)).map (·.amount)).sum))
    let categories_summary : List CategorySummaryRow :=
      (lineItemsOf db budget_id).map (fun line_item =>
      let spent : ℚ :=
        match category_spending.find? (fun r => r.1 == line_item.category_id) with
        | some r => r.2.2
        | none => 0
      { category_id := line_item.category_id
        category_name :=
          match lookupCategory db line_item.category_id with
          | some c => c.name
          | none => "Unknown"
        budgeted := roundFloat line_item.yearly_amount
        spent := roundFloat spent
        remaining := roundFloat (line_item.yearly_amount - spent)
        progress_percentage :=
          if (0 : ℚ) < line_item.yearly_amount then
            roundFloat (decMul (decDiv spent line_item.yearly_amount) 100)
          else 0 })
    some { budget := budget, total_spent := total_spent, remaining := remaining
           progress_percentage := progress_percentage
           categories_summary := categories_summary }

/-- `BudgetService.get_monthly_budget_progress`.  The service itself performs
no validation of `month`; the category rows sum transactions of **both**
types ("category-wise monthly activity (both income and expenses)"). -/
def get_monthly_budget_progress (db : DB) (budget_id : ℕ) (month : ℤ) :
    Option MonthlyBudgetProgress :=
  match get_budget_by_id db budget_id with
  | none => none
  | some budget =>
    let monthly_budgeted := decDiv budget.total_amount 12
    let monthly_spent := ((db.transactions.filter (fun t =>
        t.type == "EXPENSE" && t.transaction_date.year == budget.year &&
        t.transaction_date.month == month)).map (·.amount)).sum
    let remaining := monthly_budgeted - monthly_spent
    let progress_percentage : ℚ :=
      if (0 : ℚ) < monthly_budgeted then roundFloat (decMul (decDiv monthly_spent monthly_budgeted) 100)
      else 0
    -- rows `(id, name, type, spent)`, with no filter on `Transaction.type`
    let category_spending : List (ℕ × String × String × ℚ) := db.categories.map (fun c =>
      (c.id, c.name, c.type, ((db.transactions.filter (fun t =>
          t.category_id == c.id && t.transaction_date.year == budget.year &&
          t.transaction_date.month == month)).map (·.amount)).sum))
    let categories : List MonthlyCategoryRow :=
      (lineItemsOf db budget_id).map (fun line_item =>
      let spent : ℚ :=
        match category_spending.find? (fun r => r.1 == line_item.category_id) with
        | some r => r.2.2.2
        | none => 0
      { category_id := line_item.category_id
        category_name :=
          match lookupCategory db line_item.category_id with
          | some c => c.name
          | none => "Unknown"
        monthly_budget := roundFloat line_item.monthly_amount
        spent := roundFloat spent
        remaining := roundFloat (line_item.monthly_amount - spent)
        progress_percentage :=
          if (0 : ℚ) < line_item.monthly_amount then
            roundFloat (decMul (decDiv spent line_item.monthly_amount) 100)
          else 0 })
    some { month := month, year := budget.year, budgeted_amount := monthly_budgeted
           spent_amount := monthly_spent, remaining_amount := remaining
           progress_percentage := progress_percentage, categories := categories }

/-- The year-to-date per-category actual of `get_dashboard_data`: transactions
of the category in the budget year with month up to `current_month`, both
types summed (`category_actuals` has no `Transaction.type` filter). -/
def ytdActualOf (db : DB) (current_year : ℤ) (current_month : ℤ) (cid : ℕ) : ℚ :=
  ((db.transactions.filter (fun t =>
      t.category_id == cid && t.transaction_date.year == current_year &&
      t.transaction_date.month ≤ current_month)).map (·.amount)).sum

/-- The dashboard category record built for a line item whose category
resolves, `ytd_actual` / `ytd_difference` enrichment included.  The
`ytd_difference` is computed from the two already-`float`-converted values. -/
def mkDashboardCategory (db : DB) (current_year current_month : ℤ)
    (item : BudgetLineItem) (c : Category) : DashboardCategory :=
  let monthly_amount := decDiv item.yearly_amount 12
  let ytd_amount := decMul monthly_amount (current_month : ℚ)
  let ytd_budget := roundFloat ytd_amount
  let ytd_actual := roundFloat (ytdActualOf db current_year current_month item.category_id)
  { id := item.category_id, name := c.name
    yearly_budget := roundFloat item.yearly_amount
    monthly_budget := roundFloat monthly_amount
    ytd_budget := ytd_budget
    ytd_actual := ytd_actual
    ytd_difference := roundFloat (ytd_budget - ytd_actual) }

/-- `BudgetService.get_dashboard_data`: operates on the first active budget;
line items whose category does not resolve (or whose category type is neither
`"INCOME"` nor `"EXPENSE"`) fall through both branches of the
`if line_item.category and ...` chain and appear in neither list. -/
def get_dashboard_data (db : DB) (current_month : ℤ) : Option DashboardData :=
  match get_active_budget db with
  | none => none
  | some active_budget =>
    let current_year := active_budget.year
    let items := lineItemsOf db active_budget.id
    let income_categories := items.filterMap (fun item =>
      match lookupCategory db item.category_id with
      | some c => if c.type == "INCOME"
          then some (mkDashboardCategory db current_year current_month item c) else none
      | none => none)
    let expense_categories := items.filterMap (fun item =>
      match lookupCategory db item.category_id with
      | some c => if c.type == "EXPENSE"
          then some (mkDashboardCategory db current_year current_month item c) else none
      | none => none)
    let ytd_income_budget := (items.filterMap (fun item =>
      match lookupCategory db item.category_id with
      | some c => if c.type == "INCOME"
          then some (decMul (decDiv item.yearly_amount 12) (current_month : ℚ)) else none
      | none => none)).sum
    let ytd_expense_budget := (items.filterMap (fun item =>
      match lookupCategory db item.category_id with
      | some c => if c.type == "EXPENSE"
          then some (decMul (decDiv item.yearly_amount 12) (current_month : ℚ)) else none
      | none => none)).sum
    let ytd_income_actual := ((db.transactions.filter (fun t =>
        t.type == "INCOME" && t.transaction_date.year == current_year &&
        t.transaction_date.month ≤ current_month)).map (·.amount)).sum
    let ytd_expense_actual := ((db.transactions.filter (fun t =>
        t.type == "EXPENSE" && t.transaction_date.year == current_year &&
        t.transaction_date.month ≤ current_month)).map (·.amount)).sum
    some { budget := active_budget, current_month := current_month
           current_year := current_year
           ytd_income_budget := roundFloat ytd_income_budget
           ytd_income_actual := roundFloat ytd_income_actual
           ytd_expense_budget := roundFloat ytd_expense_budget
           ytd_expense_actual := roundFloat ytd_expense_actual
           income_categories := income_categories
           expense_categories := expense_categories }

/-! ## The HTTP layer's month validation (`app/api/v1/budget.py`) -/

/-- The spec's error taxonomy as surfaced by the route handlers:
HTTP 400 ("Month must be between 1 and 12") is the `ValidationError` case,
HTTP 404 the `NotFoundError` case. -/
inductive ApiError where
  | validationError
  | notFoundError
deriving DecidableEq

/-- The route handler `get_monthly_budget_progress` of `api/v1/budget.py`:
validates the month range before consulting the service. -/
def api_get_monthly_budget_progress (db : DB) (budget_id : ℕ) (month : ℤ) :
    Except ApiError MonthlyBudgetProgress :=
  if month < 1 ∨ 12 < month then .error .validationError
  else
    match get_monthly_budget_progress db budget_id month with
    | none => .error .notFoundError
    | some progress => .ok progress

/-! ## The lifecycle invariants -/

/-- Every line item references an existing budget (no orphans; maintained by
the operations themselves, used to relate totals to item sums). -/
def orphanFree (B : List Budget) (I : List BudgetLineItem) : Prop :=
  ∀ it ∈ I, it.budget_id ∈ B.map (·.id)

/-- Every budget's `total_amount` is the sum of its line items'
`yearly_amount`. -/
def totalsOk (B : List Budget) (I : List BudgetLineItem) : Prop :=
  ∀ b ∈ B, b.total_amount = sumYearly (I.filter (fun it => it.budget_id == b.id))

/-- Every line item's `monthly_amount` is its `yearly_amount` divided by 12
in `Decimal` arithmetic. -/
def monthlyOk (I : List BudgetLineItem) : Prop :=
  ∀ it ∈ I, it.monthly_amount = decDiv it.yearly_amount 12

/-- The inductive invariant of the budget store. -/
def StoreInv (db : DB) : Prop :=
  commitOK db ∧ orphanFree db.budgets db.line_items ∧
    totalsOk db.budgets db.line_items ∧ monthlyOk db.line_items

theorem sumYearly_nil : sumYearly [] = 0 := rfl

theorem sumYearly_cons (x : BudgetLineItem) (l : List BudgetLineItem) :
    sumYearly (x :: l) = x.yearly_amount + sumYearly l := by
  simp [sumYearly]

theorem sumYearly_append (a b : List BudgetLineItem) :
    sumYearly (a ++ b) = sumYearly a + sumYearly b := by
  simp [sumYearly]

/-- If `bid` is no budget's id, an orphan-free item table has no items for
`bid`. -/
theorem filter_budget_nil_of_orphanFree {B : List Budget} {I : List BudgetLineItem}
    {bid : ℕ} (ho : orphanFree B I) (hb : bid ∉ B.map (·.id)) :
    I.filter (fun it => it.budget_id == bid) = [] := by
  refine List.filter_eq_nil_iff.2 (fun it hit => ?_)
  intro hbeq
  have heq : it.budget_id = bid := by simpa using hbeq
  exact hb (heq ▸ ho it hit)

theorem not_mem_of_nodup_concat {α : Type} {l : List α} {a : α}
    (h : (l ++ [a]).Nodup) : a ∉ l := by
  intro ha
  rcases List.nodup_append.1 h with ⟨-, -, hdisj⟩
  exact hdisj ha (List.mem_singleton_self a)

/-- A map that preserves ids preserves the id column. -/
theorem map_id_of_preserve {B : List Budget} {g : Budget → Budget}
    (hid : ∀ b, (g b).id = b.id) : (B.map g).map (·.id) = B.map (·.id) := by
  rw [List.map_map]
  exact List.map_congr_left (fun b _ => hid b)

/-- `orphanFree` only looks at the budget id column. -/
theorem orphanFree_map_budgets {B : List Budget} {I : List BudgetLineItem}
    {g : Budget → Budget} (hid : ∀ b, (g b).id = b.id)
    (h : orphanFree B I) : orphanFree (B.map g) I := by
  intro it hit
  rw [map_id_of_preserve hid]
  exact h it hit

/-- `totalsOk` is preserved by a budget map that changes neither ids nor
totals. -/
theorem totalsOk_map_budgets {B : List Budget} {I : List BudgetLineItem}
    {g : Budget → Budget} (hid : ∀ b, (g b).id = b.id)
    (ht : ∀ b, (g b).total_amount = b.total_amount)
    (h : totalsOk B I) : totalsOk (B.map g) I := by
  intro b' hb'
  rcases List.mem_map.1 hb' with ⟨b, hb, rfl⟩
  rw [ht b, hid b]
  exact h b hb

/-- With a duplicate-free id column, survivors of erasing by id have a
different id. -/
theorem eraseP_id_ne {B : List Budget} (hnd : (B.map (·.id)).Nodup) {bid : ℕ} :
    ∀ b' ∈ B.eraseP (fun b => b.id == bid), b'.id ≠ bid := by
  induction B with
  | nil => simp
  | cons h t ih =>
    rw [List.map_cons, List.nodup_cons] at hnd
    intro b' hb'
    rw [List.eraseP_cons] at hb'
    by_cases hh : h.id = bid
    · simp only [hh, beq_self_eq_true, cond_true] at hb'
      intro hbb
      exact hnd.1 (hh ▸ hbb ▸ List.mem_map.2 ⟨b', hb', rfl⟩)
    · have : (h.id == bid) = false := by simpa using hh
      rw [this, cond_false] at hb'
      rcases List.mem_cons.1 hb' with rfl | hb't
      · exact hh
      · exact ih hnd.2 b' hb't

/-- An element not matching the predicate survives `eraseP`. -/
theorem mem_eraseP_of_not {α : Type} {l : List α} {p : α → Bool} {a : α}
    (ha : a ∈ l) (hp : p a = false) : a ∈ l.eraseP p := by
  induction l with
  | nil => cases ha
  | cons h t ih =>
    rw [List.eraseP_cons]
    rcases List.mem_cons.1 ha with rfl | hat
    · simp [hp]
    · cases hpc : p h
      · rw [cond_false]
        exact List.mem_cons.2 (.inr (ih hat))
      · rw [cond_true]
        exact hat

/-- With a duplicate-free id column, items are determined by their id. -/
theorem eq_of_mem_of_id_eq {I : List BudgetLineItem} (hnd : (I.map (·.id)).Nodup)
    {x y : BudgetLineItem} (hx : x ∈ I) (hy : y ∈ I) (h : x.id = y.id) : x = y :=
  List.inj_on_of_nodup_map hnd hx hy h

/-- A pointwise item map that changes neither budget ids nor yearly amounts
leaves every per-budget yearly sum unchanged. -/
theorem sumYearly_filter_map_congr {I : List BudgetLineItem}
    {g : BudgetLineItem → BudgetLineItem}
    (hb : ∀ it, (g it).budget_id = it.budget_id)
    (hy : ∀ it, (g it).yearly_amount = it.yearly_amount) (bid : ℕ) :
    sumYearly ((I.map g).filter (fun it => it.budget_id == bid)) =
      sumYearly (I.filter (fun it => it.budget_id == bid)) := by
  induction I with
  | nil => rfl
  | cons h t ih =>
    rw [List.map_cons, List.filter_cons, List.filter_cons, hb h]
    by_cases hc : h.budget_id = bid
    · simp only [hc, beq_self_eq_true, if_true, sumYearly_cons, hy h, ih]
    · have : (h.budget_id == bid) = false := by simpa using hc
      rw [this]
      simpa using ih

/-- Updating the single item of a given id moves the per-budget yearly sum by
that item's yearly delta (when the item belongs to the budget). -/
theorem sumYearly_filter_map_single {I : List BudgetLineItem}
    (hnd : (I.map (·.id)).Nodup) {it0 : BudgetLineItem} (h0 : it0 ∈ I)
    {g : BudgetLineItem → BudgetLineItem}
    (hg : ∀ it, it.id ≠ it0.id → g it = it)
    (hgb : (g it0).budget_id = it0.budget_id) (bid : ℕ) :
    sumYearly ((I.map g).filter (fun it => it.budget_id == bid)) =
      sumYearly (I.filter (fun it => it.budget_id == bid)) +
        (if it0.budget_id = bid then (g it0).yearly_amount - it0.yearly_amount else 0) := by
  induction I with
  | nil => cases h0
  | cons h t ih =>
    rw [List.map_cons, List.nodup_cons] at hnd
    rcases List.mem_cons.1 h0 with rfl | h0t
    · have ht' : t.map g = t := by
        have := List.map_congr_left (l := t) (f := g) (g := fun it => it)
          (fun it hit => hg it (fun hid => hnd.1 (hid ▸ List.mem_map.2 ⟨it, hit, rfl⟩)))
        simpa using this
      rw [List.map_cons, ht', List.filter_cons, List.filter_cons, hgb]
      by_cases hb : it0.budget_id = bid
      · simp [hb, sumYearly_cons]
        ring
      · simp [hb]
    · have hne : h.id ≠ it0.id := fun he => hnd.1 (he ▸ List.mem_map.2 ⟨it0, h0t, rfl⟩)
      rw [List.map_cons, hg h hne, List.filter_cons, List.filter_cons]
      by_cases hb : h.budget_id = bid
      · simp [hb, sumYearly_cons, ih hnd.2 h0t]
        ring
      · simp [hb, ih hnd.2 h0t]

/-- Erasing the single item of a given id lowers the per-budget yearly sum by
that item's yearly amount (when the item belongs to the budget). -/
theorem sumYearly_filter_eraseP {I : List BudgetLineItem}
    (hnd : (I.map (·.id)).Nodup) {it0 : BudgetLineItem} (h0 : it0 ∈ I)
    {iid : ℕ} (hid : it0.id = iid) (bid : ℕ) :
    sumYearly ((I.eraseP (fun it => it.id == iid)).filter (fun it => it.budget_id == bid)) =
      sumYearly (I.filter (fun it => it.budget_id == bid)) -
        (if it0.budget_id = bid then it0.yearly_amount else 0) := by
  induction I with
  | nil => cases h0
  | cons h t ih =>
    rw [List.map_cons, List.nodup_cons] at hnd
    rw [List.eraseP_cons]
    rcases List.mem_cons.1 h0 with rfl | h0t
    · simp only [hid, beq_self_eq_true, cond_true, List.filter_cons]
      by_cases hb : it0.budget_id = bid
      · simp [hb, sumYearly_cons]
      · simp [hb]
    · have hne : h.id ≠ iid := fun he =>
        hnd.1 ((he.trans hid.symm) ▸ List.mem_map.2 ⟨it0, h0t, rfl⟩)
      have hnef : (h.id == iid) = false := by simpa using hne
      rw [hnef, cond_false, List.filter_cons, List.filter_cons]
      by_cases hb : h.budget_id = bid
      · simp [hb, sumYearly_cons, ih hnd.2 h0t]
        ring
      · simp [hb, ih hnd.2 h0t]

theorem get_budget_by_id_mem {db : DB} {bid : ℕ} {b : Budget}
    (h : get_budget_by_id db bid = some b) : b ∈ db.budgets ∧ b.id = bid :=
  ⟨List.mem_of_find?_eq_some h, by simpa using List.find?_some h⟩

theorem applyBudgetUpdate_id (b : Budget) (d : BudgetUpdate) :
    (applyBudgetUpdate b d).id = b.id := by
  rcases d with ⟨y, n, a⟩
  cases y <;> cases n <;> cases a <;> rfl

theorem applyBudgetUpdate_total (b : Budget) (d : BudgetUpdate) :
    (applyBudgetUpdate b d).total_amount = b.total_amount := by
  rcases d with ⟨y, n, a⟩
  cases y <;> cases n <;> cases a <;> rfl

theorem applyLineItemUpdate_budget_id (it : BudgetLineItem) (d : BudgetLineItemUpdate) :
    (applyLineItemUpdate it d).budget_id = it.budget_id := by
  rcases d with ⟨c, y⟩
  cases c <;> cases y <;> rfl

theorem applyLineItemUpdate_yearly_none (it : BudgetLineItem) (c : Option ℕ) :
    (applyLineItemUpdate it ⟨c, none⟩).yearly_amount = it.yearly_amount := by
  cases c <;> rfl

theorem applyLineItemUpdate_monthly_none (it : BudgetLineItem) (c : Option ℕ) :
    (applyLineItemUpdate it ⟨c, none⟩).monthly_amount = it.monthly_amount := by
  cases c <;> rfl

theorem applyLineItemUpdate_yearly_some (it : BudgetLineItem) (c : Option ℕ) (y : ℚ) :
    (applyLineItemUpdate it ⟨c, some y⟩).yearly_amount = y := by
  cases c <;> rfl

theorem createItems_budget_id {itemId : ℕ → ℕ} {bid : ℕ} {items : List BudgetLineItemCreate} :
    ∀ it ∈ createItems itemId bid items, it.budget_id = bid := by
  intro it hit
  rcases List.mem_map.1 hit with ⟨p, hp, rfl⟩
  rfl

theorem createItems_monthlyOk {itemId : ℕ → ℕ} {bid : ℕ} {items : List BudgetLineItemCreate} :
    monthlyOk (createItems itemId bid items) := by
  intro it hit
  rcases List.mem_map.1 hit with ⟨p, hp, rfl⟩
  rfl

theorem createItems_sum (itemId : ℕ → ℕ) (bid : ℕ) (items : List BudgetLineItemCreate) :
    sumYearly (createItems itemId bid items) = (items.map (·.yearly_amount)).sum := by
  unfold sumYearly createItems
  rw [List.map_map]
  have hcomp : ((fun it : BudgetLineItem => it.yearly_amount) ∘ (fun p : ℕ × BudgetLineItemCreate =>
      ({ id := itemId p.1, budget_id := bid, category_id := p.2.category_id,
         yearly_amount := p.2.yearly_amount,
         monthly_amount := decDiv p.2.yearly_amount 12 } : BudgetLineItem))) =
      ((fun c : BudgetLineItemCreate => c.yearly_amount) ∘ Prod.snd) := rfl
  rw [hcomp, ← List.map_map, List.enum_map_snd]

theorem createItems_filter_self (itemId : ℕ → ℕ) (bid : ℕ) (items : List BudgetLineItemCreate) :
    (createItems itemId bid items).filter (fun it => it.budget_id == bid) =
      createItems itemId bid items := by
  refine List.filter_eq_self.2 (fun it hit => ?_)
  simp [createItems_budget_id it hit]

theorem createItems_filter_ne (itemId : ℕ → ℕ) (bid : ℕ) (items : List BudgetLineItemCreate)
    {x : ℕ} (hx : x ≠ bid) :
    (createItems itemId bid items).filter (fun it => it.budget_id == x) = [] := by
  refine List.filter_eq_nil_iff.2 (fun it hit => ?_)
  simp [createItems_budget_id it hit, Ne.symm hx]

/-- `create_budget` preserves the store invariant. -/
theorem storeInv_create (db : DB) (bid : ℕ) (itemId : ℕ → ℕ) (d : BudgetCreate)
    (h : StoreInv db) : StoreInv (create_budget db bid itemId d).2 := by
  obtain ⟨hok, ho, ht, hm⟩ := h
  simp only [create_budget]
  split
  case isFalse => exact ⟨hok, ho, ht, hm⟩
  case isTrue hok' =>
    have hbid : bid ∉ db.budgets.map (·.id) := by
      have h1 := hok'.1
      simp only [List.map_append, List.map_cons, List.map_nil] at h1
      exact not_mem_of_nodup_concat h1
    refine ⟨hok', ?_, ?_, ?_⟩
    · intro it hit
      rw [List.map_append]
      rcases List.mem_append.1 hit with h1 | h2
      · exact List.mem_append.2 (.inl (ho it h1))
      · refine List.mem_append.2 (.inr ?_)
        rw [createItems_budget_id it h2]
        simp
    · intro b hb
      rcases List.mem_append.1 hb with hb | hb
      · have hbne : b.id ≠ bid := fun he => hbid (he ▸ List.mem_map.2 ⟨b, hb, rfl⟩)
        rw [List.filter_append, sumYearly_append,
          createItems_filter_ne itemId bid d.line_items hbne, sumYearly_nil, add_zero]
        exact ht b hb
      · have hbe := List.mem_singleton.1 hb
        have hbid2 : b.id = bid := by rw [hbe]
        have hbtot : b.total_amount = (d.line_items.map (·.yearly_amount)).sum := by rw [hbe]
        rw [List.filter_append, sumYearly_append, hbid2, hbtot,
          filter_budget_nil_of_orphanFree ho hbid, sumYearly_nil, zero_add,
          createItems_filter_self, createItems_sum]
    · intro it hit
      rcases List.mem_append.1 hit with h1 | h2
      · exact hm it h1
      · exact createItems_monthlyOk it h2

theorem singleton_filter_self {li : BudgetLineItem} {bid : ℕ} (h : li.budget_id = bid) :
    [li].filter (fun it => it.budget_id == bid) = [li] := by
  have hb : (li.budget_id == bid) = true := by simpa using h
  simp [List.filter_cons, hb]

theorem singleton_filter_ne {li : BudgetLineItem} {x : ℕ} (h : li.budget_id ≠ x) :
    [li].filter (fun it => it.budget_id == x) = [] := by
  have hb : (li.budget_id == x) = false := by simpa using h
  simp [List.filter_cons, hb]

/-- Appending one line item while raising its budget's total by its yearly
amount preserves `totalsOk`. -/
theorem totalsOk_add {B : List Budget} {I : List BudgetLineItem} (li : BudgetLineItem)
    (h : totalsOk B I) :
    totalsOk (B.map (fun b => if b.id == li.budget_id then
        { b with total_amount := b.total_amount + li.yearly_amount } else b)) (I ++ [li]) := by
  intro b' hb'
  rcases List.mem_map.1 hb' with ⟨b, hb, rfl⟩
  by_cases hc : b.id = li.budget_id
  · simp only [hc, beq_self_eq_true, if_true]
    show b.total_amount + li.yearly_amount =
      sumYearly ((I ++ [li]).filter (fun it => it.budget_id == li.budget_id))
    rw [List.filter_append, sumYearly_append, singleton_filter_self rfl,
      sumYearly_cons, sumYearly_nil]
    have h1 := h b hb
    rw [hc] at h1
    rw [← h1]
    ring
  · have hcf : ¬ ((b.id == li.budget_id) = true) := by simpa using hc
    rw [if_neg hcf]
    show b.total_amount = sumYearly ((I ++ [li]).filter (fun it => it.budget_id == b.id))
    rw [List.filter_append, sumYearly_append,
      singleton_filter_ne (fun he => hc he.symm), sumYearly_nil, add_zero]
    exact h b hb

/-- `add_budget_line_item` preserves the store invariant. -/
theorem storeInv_add (db : DB) (newId : ℕ) (bid : ℕ) (d : BudgetLineItemCreate)
    (h : StoreInv db) : StoreInv (add_budget_line_item db newId bid d).2 := by
  obtain ⟨hok, ho, ht, hm⟩ := h
  simp only [add_budget_line_item]
  split
  next hfind => exact ⟨hok, ho, ht, hm⟩
  next b0 hfind =>
    split
    next it1 hdup => exact ⟨hok, ho, ht, hm⟩
    next hdup =>
      split
      case isFalse => exact ⟨hok, ho, ht, hm⟩
      case isTrue hok' =>
        have hb0 := get_budget_by_id_mem hfind
        have hmemid : bid ∈ db.budgets.map (·.id) := List.mem_map.2 ⟨b0, hb0.1, hb0.2⟩
        refine ⟨hok', ?_, ?_, ?_⟩
        · intro it hit
          rw [map_id_of_preserve (fun b => by by_cases hc : b.id = bid <;> simp [hc])]
          rcases List.mem_append.1 hit with h1 | h2
          · exact ho it h1
          · rw [List.mem_singleton.1 h2]
            exact hmemid
        · exact totalsOk_add ⟨newId, bid, d.category_id, d.yearly_amount, decDiv d.yearly_amount 12⟩ ht
        · intro it hit
          rcases List.mem_append.1 hit with h1 | h2
          · exact hm it h1
          · rw [List.mem_singleton.1 h2]

/-- `update_budget` preserves the store invariant. -/
theorem storeInv_updateBudget (db : DB) (bid : ℕ) (d : BudgetUpdate)
    (h : StoreInv db) : StoreInv (update_budget db bid d).2 := by
  obtain ⟨hok, ho, ht, hm⟩ := h
  simp only [update_budget]
  split
  next hfind => exact ⟨hok, ho, ht, hm⟩
  next b0 hfind =>
    split
    case isFalse => exact ⟨hok, ho, ht, hm⟩
    case isTrue hok' =>
      have hid : ∀ b : Budget,
          ((if b.id == bid then applyBudgetUpdate b d else b) : Budget).id = b.id := by
        intro b
        by_cases hc : b.id = bid <;> simp [hc, applyBudgetUpdate_id]
      have htot : ∀ b : Budget,
          ((if b.id == bid then applyBudgetUpdate b d else b) : Budget).total_amount
            = b.total_amount := by
        intro b
        by_cases hc : b.id = bid <;> simp [hc, applyBudgetUpdate_total]
      exact ⟨hok', orphanFree_map_budgets hid ho, totalsOk_map_budgets hid htot ht, hm⟩

/-- `delete_budget` preserves the store invariant. -/
theorem storeInv_deleteBudget (db : DB) (bid : ℕ)
    (h : StoreInv db) : StoreInv (delete_budget db bid).2 := by
  obtain ⟨hok, ho, ht, hm⟩ := h
  simp only [delete_budget]
  split
  next hfind => exact ⟨hok, ho, ht, hm⟩
  next b0 hfind =>
    split
    case isFalse => exact ⟨hok, ho, ht, hm⟩
    case isTrue hok' =>
      refine ⟨hok', ?_, ?_, ?_⟩
      · intro it hit
        have hit' := List.mem_filter.1 hit
        have hne : it.budget_id ≠ bid := by
          have h2 := hit'.2
          simpa using h2
        rcases List.mem_map.1 (ho it hit'.1) with ⟨b, hb, hbe⟩
        refine List.mem_map.2 ⟨b, ?_, hbe⟩
        refine mem_eraseP_of_not hb ?_
        have hbne : b.id ≠ bid := by rw [hbe]; exact hne
        simpa using hbne
      · intro b' hb'
        have hb'mem : b' ∈ db.budgets := (List.eraseP_sublist _).subset hb'
        have hb'ne : b'.id ≠ bid := eraseP_id_ne hok.1 b' hb'
        have hsub : (db.line_items.filter (fun it => !(it.budget_id == bid))).filter
            (fun it => it.budget_id == b'.id) =
            db.line_items.filter (fun it => it.budget_id == b'.id) := by
          rw [List.filter_filter]
          refine List.filter_congr (fun it hit => ?_)
          by_cases hcx : it.budget_id = b'.id
          · simp [hcx, hb'ne]
          · simp [hcx]
        rw [hsub]
        exact ht b' hb'mem
      · intro it hit
        exact hm it (List.mem_filter.1 hit).1

/-- Replacing the single item of a given id while moving its budget's total by
the yearly delta preserves `totalsOk`. -/
theorem totalsOk_update {B : List Budget} {I : List BudgetLineItem}
    (hnd : (I.map (·.id)).Nodup) {it0 : BudgetLineItem} (h0 : it0 ∈ I)
    {g : BudgetLineItem → BudgetLineItem} (hg : ∀ it, it.id ≠ it0.id → g it = it)
    (hgb : (g it0).budget_id = it0.budget_id) {ynew : ℚ}
    (hynew : (g it0).yearly_amount = ynew) (h : totalsOk B I) :
    totalsOk (B.map (fun b => if b.id == it0.budget_id then
        { b with total_amount := b.total_amount - it0.yearly_amount + ynew } else b))
      (I.map g) := by
  intro b' hb'
  rcases List.mem_map.1 hb' with ⟨b, hb, rfl⟩
  by_cases hc : b.id = it0.budget_id
  · simp only [hc, beq_self_eq_true, if_true]
    show b.total_amount - it0.yearly_amount + ynew =
      sumYearly ((I.map g).filter (fun it => it.budget_id == it0.budget_id))
    rw [sumYearly_filter_map_single hnd h0 hg hgb it0.budget_id, if_pos rfl]
    have h1 := h b hb
    rw [hc] at h1
    rw [← h1, hynew]
    ring
  · have hcf : ¬ ((b.id == it0.budget_id) = true) := by simpa using hc
    rw [if_neg hcf]
    show b.total_amount = sumYearly ((I.map g).filter (fun it => it.budget_id == b.id))
    rw [sumYearly_filter_map_single hnd h0 hg hgb b.id, if_neg (fun he => hc he.symm), add_zero]
    exact h b hb

/-- Erasing the single item of a given id while lowering its budget's total by
its yearly amount preserves `totalsOk`. -/
theorem totalsOk_erase {B : List Budget} {I : List BudgetLineItem}
    (hnd : (I.map (·.id)).Nodup) {it0 : BudgetLineItem} (h0 : it0 ∈ I)
    {iid : ℕ} (hid : it0.id = iid) (h : totalsOk B I) :
    totalsOk (B.map (fun b => if b.id == it0.budget_id then
        { b with total_amount := b.total_amount - it0.yearly_amount } else b))
      (I.eraseP (fun it => it.id == iid)) := by
  intro b' hb'
  rcases List.mem_map.1 hb' with ⟨b, hb, rfl⟩
  by_cases hc : b.id = it0.budget_id
  · simp only [hc, beq_self_eq_true, if_true]
    show b.total_amount - it0.yearly_amount =
      sumYearly ((I.eraseP (fun it => it.id == iid)).filter
        (fun it => it.budget_id == it0.budget_id))
    rw [sumYearly_filter_eraseP hnd h0 hid it0.budget_id, if_pos rfl]
    have h1 := h b hb
    rw [hc] at h1
    rw [← h1]
  · have hcf : ¬ ((b.id == it0.budget_id) = true) := by simpa using hc
    rw [if_neg hcf]
    show b.total_amount = sumYearly ((I.eraseP (fun it => it.id == iid)).filter
      (fun it => it.budget_id == b.id))
    rw [sumYearly_filter_eraseP hnd h0 hid b.id, if_neg (fun he => hc he.symm), sub_zero]
    exact h b hb

/-- `update_budget_line_item` preserves the store invariant. -/
theorem storeInv_updateLineItem (db : DB) (iid : ℕ) (d : BudgetLineItemUpdate)
    (h : StoreInv db) : StoreInv (update_budget_line_item db iid d).2 := by
  obtain ⟨hok, ho, ht, hm⟩ := h
  rcases d with ⟨dcat, dyear⟩
  simp only [update_budget_line_item]
  split
  next hfind => exact ⟨hok, ho, ht, hm⟩
  next it0 hfind =>
    have hmem : it0 ∈ db.line_items := List.mem_of_find?_eq_some hfind
    have hid0 : it0.id = iid := by simpa using List.find?_some hfind
    cases dyear with
    | none =>
      simp only [Option.isSome_none, Bool.false_eq_true, if_false]
      split
      case isFalse => exact ⟨hok, ho, ht, hm⟩
      case isTrue hok' =>
        refine ⟨hok', ?_, ?_, ?_⟩
        · intro it' hit'
          rcases List.mem_map.1 hit' with ⟨it, hit, rfl⟩
          have hb : ((if it.id == iid then applyLineItemUpdate it ⟨dcat, none⟩ else it) :
              BudgetLineItem).budget_id = it.budget_id := by
            by_cases hc : it.id = iid <;> simp [hc, applyLineItemUpdate_budget_id]
          rw [hb]
          exact ho it hit
        · intro b hb
          rw [sumYearly_filter_map_congr
            (fun it => by by_cases hc : it.id = iid <;> simp [hc, applyLineItemUpdate_budget_id])
            (fun it => by by_cases hc : it.id = iid <;> simp [hc, applyLineItemUpdate_yearly_none])
            b.id]
          exact ht b hb
        · intro it' hit'
          rcases List.mem_map.1 hit' with ⟨it, hit, rfl⟩
          by_cases hc : it.id = iid
          · simp only [hc, beq_self_eq_true, if_true]
            rw [applyLineItemUpdate_monthly_none, applyLineItemUpdate_yearly_none]
            exact hm it hit
          · rw [if_neg (by simpa using hc)]
            exact hm it hit
    | some y =>
      simp only [Option.isSome_some, eq_self_iff_true, if_true]
      split
      case isFalse => exact ⟨hok, ho, ht, hm⟩
      case isTrue hok' =>
        have hg : ∀ it : BudgetLineItem, it.id ≠ it0.id →
            ((if it.id == iid then
              { applyLineItemUpdate it ⟨dcat, some y⟩ with
                monthly_amount := decDiv (applyLineItemUpdate it ⟨dcat, some y⟩).yearly_amount 12 }
              else it) : BudgetLineItem) = it := by
          intro it hne
          rw [if_neg (by simpa using hid0 ▸ hne)]
        refine ⟨hok', ?_, ?_, ?_⟩
        · intro it' hit'
          rcases List.mem_map.1 hit' with ⟨it, hit, rfl⟩
          have hb : ((if it.id == iid then
              { applyLineItemUpdate it ⟨dcat, some y⟩ with
                monthly_amount := decDiv (applyLineItemUpdate it ⟨dcat, some y⟩).yearly_amount 12 }
              else it) : BudgetLineItem).budget_id = it.budget_id := by
            by_cases hc : it.id = iid <;> simp [hc, applyLineItemUpdate_budget_id]
          rw [map_id_of_preserve (fun b => by
            by_cases hc : b.id = it0.budget_id <;> simp [hc]), hb]
          exact ho it hit
        · exact totalsOk_update hok.2.2.1 hmem hg
            (by simp [hid0, applyLineItemUpdate_budget_id])
            (by simp [hid0, applyLineItemUpdate_yearly_some]) ht
        · intro it' hit'
          rcases List.mem_map.1 hit' with ⟨it, hit, rfl⟩
          by_cases hc : it.id = iid
          · simp only [hc, beq_self_eq_true, if_true]
          · rw [if_neg (by simpa using hc)]
            exact hm it hit

/-- `delete_budget_line_item` preserves the store invariant. -/
theorem storeInv_deleteLineItem (db : DB) (iid : ℕ)
    (h : StoreInv db) : StoreInv (delete_budget_line_item db iid).2 := by
  obtain ⟨hok, ho, ht, hm⟩ := h
  simp only [delete_budget_line_item]
  split
  next hfind => exact ⟨hok, ho, ht, hm⟩
  next it0 hfind =>
    have hmem : it0 ∈ db.line_items := List.mem_of_find?_eq_some hfind
    have hid0 : it0.id = iid := by simpa using List.find?_some hfind
    split
    case isFalse => exact ⟨hok, ho, ht, hm⟩
    case isTrue hok' =>
      refine ⟨hok', ?_, ?_, ?_⟩
      · intro it hit
        have hit' : it ∈ db.line_items := (List.eraseP_sublist _).subset hit
        rw [map_id_of_preserve (fun b => by
          by_cases hc : b.id = it0.budget_id <;> simp [hc])]
        exact ho it hit'
      · exact totalsOk_erase hok.2.2.1 hmem hid0 ht
      · intro it hit
        exact hm it ((List.eraseP_sublist _).subset hit)

/-- `set_active_budget` preserves the store invariant. -/
theorem storeInv_setActive (db : DB) (bid : ℕ)
    (h : StoreInv db) : StoreInv (set_active_budget db bid).2 := by
  obtain ⟨hok, ho, ht, hm⟩ := h
  simp only [set_active_budget]
  split
  next hfind => exact ⟨hok, ho, ht, hm⟩
  next target hfind =>
    have hdeact : ∀ ex : Budget, ∀ b : Budget,
        ((if b.id == ex.id then { b with is_active := false } else b) : Budget).id = b.id :=
      fun ex b => by by_cases hc : b.id = ex.id <;> simp [hc]
    have hdeactT : ∀ ex : Budget, ∀ b : Budget,
        ((if b.id == ex.id then { b with is_active := false } else b) : Budget).total_amount
          = b.total_amount :=
      fun ex b => by by_cases hc : b.id = ex.id <;> simp [hc]
    have hact : ∀ b : Budget,
        ((if b.id == bid then { b with is_active := true } else b) : Budget).id = b.id :=
      fun b => by by_cases hc : b.id = bid <;> simp [hc]
    have hactT : ∀ b : Budget,
        ((if b.id == bid then { b with is_active := true } else b) : Budget).total_amount
          = b.total_amount :=
      fun b => by by_cases hc : b.id = bid <;> simp [hc]
    cases hex : db.budgets.find? (fun b =>
        b.year == target.year && b.is_active && !(b.id == bid)) with
    | none =>
      split
      case isFalse => exact ⟨hok, ho, ht, hm⟩
      case isTrue hok' =>
        exact ⟨hok', orphanFree_map_budgets hact ho,
          totalsOk_map_budgets hact hactT ht, hm⟩
    | some ex =>
      split
      case isFalse => exact ⟨hok, ho, ht, hm⟩
      case isTrue hok' =>
        exact ⟨hok',
          orphanFree_map_budgets hact (orphanFree_map_budgets (hdeact ex) ho),
          totalsOk_map_budgets hact hactT
            (totalsOk_map_budgets (hdeact ex) (hdeactT ex) ht), hm⟩

/-- Every mutation preserves the store invariant. -/
theorem storeInv_applyOp (db : DB) (op : Op) (h : StoreInv db) :
    StoreInv (applyOp db op) := by
  cases op with
  | createBudget bid itemId d => exact storeInv_create db bid itemId d h
  | updateBudget bid d => exact storeInv_updateBudget db bid d h
  | deleteBudget bid => exact storeInv_deleteBudget db bid h
  | addLineItem newId bid d => exact storeInv_add db newId bid d h
  | updateLineItem iid d => exact storeInv_updateLineItem db iid d h
  | deleteLineItem iid => exact storeInv_deleteLineItem db iid h
  | setActiveBudget bid => exact storeInv_setActive db bid h

/-- Every reachable store state satisfies the invariant. -/
theorem reachable_storeInv {db : DB} (h : Reachable db) : StoreInv db := by
  induction h with
  | init cats txs =>
    exact ⟨⟨by simp, by simp, by simp, by simp⟩,
      fun it hit => absurd hit (List.not_mem_nil it),
      fun b hb => absurd hb (List.not_mem_nil b),
      fun it hit => absurd hit (List.not_mem_nil it)⟩
  | step op hr ih => exact storeInv_applyOp _ op ih
  | external cats txs hr ih => exact ⟨ih.1, ih.2.1, ih.2.2.1, ih.2.2.2⟩

/-! ## Claims -/

/-- C1: For every budget and every sequence of CreateBudget, AddLineItem,
UpdateLineItem and DeleteLineItem operations applied to it (all mutations of
`Op` are covered, a superset), the budget's `total_amount` afterwards equals
the sum of the `yearly_amount` of its current line items. -/
theorem c1_total_amount_invariant (db : DB) (h : Reachable db) :
    ∀ b ∈ db.budgets, b.total_amount = sumYearly (lineItemsOf db b.id) :=
  fun b hb => (reachable_storeInv h).2.2.1 b hb

/-- C2 (amended): in every reachable state, every line item's stored
`monthly_amount` equals its `yearly_amount` divided by 12 in Python `Decimal`
arithmetic, i.e. the exact quotient correctly rounded to the default
context's 28 significant digits (`ROUND_HALF_EVEN`); no floating point is
involved, but the division is not exact whenever the quotient needs more
than 28 significant digits (e.g. `yearly_amount = 100`). -/
theorem c2_monthly_amount_context_division (db : DB) (h : Reachable db) :
    ∀ it ∈ db.line_items, it.monthly_amount = decDiv it.yearly_amount 12 :=
  fun it hit => (reachable_storeInv h).2.2.2 it hit

/-- C3: every lifecycle operation preserves the uniqueness of
`(budget_id, category_id)` pairs among line items: in any reachable state no
budget has two line items with the same category. -/
theorem c3_unique_budget_category (db : DB) (h : Reachable db) :
    (db.line_items.map (fun it => (it.budget_id, it.category_id))).Nodup :=
  (reachable_storeInv h).1.2.2.2

/-- C4: for every existing budget and every month outside 1..12, the
monthly-progress route fails with the `ValidationError` case (HTTP 400)
without returning a result. -/
theorem c4_month_range_validation (db : DB) (budget_id : ℕ) (month : ℤ)
    (b : Budget) (hb : b ∈ db.budgets) (hbid : b.id = budget_id)
    (hmonth : month < 1 ∨ 12 < month) :
    api_get_monthly_budget_progress db budget_id month =
      .error .validationError := by
  unfold api_get_monthly_budget_progress
  rw [if_pos hmonth]

/-- C9: `add_budget_line_item` returns the identical absent-result sentinel
(`none`, with the store unchanged) both when the budget id does not exist and
when the `(budget_id, category_id)` pair already has a line item. -/
theorem c9_add_line_item_none_sentinel (db : DB) (newId : ℕ) (budget_id : ℕ)
    (d : BudgetLineItemCreate) :
    (get_budget_by_id db budget_id = none →
      add_budget_line_item db newId budget_id d = (none, db)) ∧
    ((∃ b ∈ db.budgets, b.id = budget_id) →
      (∃ it ∈ db.line_items, it.budget_id = budget_id ∧
        it.category_id = d.category_id) →
      add_budget_line_item db newId budget_id d = (none, db)) := by
  constructor
  · intro h
    unfold add_budget_line_item
    rw [h]
  · rintro ⟨b, hb, hbid⟩ ⟨it, hit, hitb, hitc⟩
    unfold add_budget_line_item
    have h1 : ∃ b', get_budget_by_id db budget_id = some b' :=
      Option.isSome_iff_exists.1 (List.find?_isSome.2 ⟨b, hb, by simpa using hbid⟩)
    rcases h1 with ⟨b', hb'⟩
    rw [hb']
    have h2 : ∃ it', db.line_items.find? (fun it' =>
        it'.budget_id == budget_id && it'.category_id == d.category_id) = some it' :=
      Option.isSome_iff_exists.1 (List.find?_isSome.2 ⟨it, hit, by simp [hitb, hitc]⟩)
    rcases h2 with ⟨it', hit'⟩
    rw [hit']

theorem find?_map_comp {α β : Type} (f : α → β) (p : β → Bool) (l : List α) :
    (l.map f).find? p = (l.find? (fun a => p (f a))).map f := by
  induction l with
  | nil => rfl
  | cons h t ih =>
    rw [List.map_cons]
    cases hp : p (f h)
    · rw [List.find?_cons_of_neg _ (by simp [hp]), List.find?_cons_of_neg _ (by simp [hp])]
      exact ih
    · rw [List.find?_cons_of_pos _ (by simp [hp]), List.find?_cons_of_pos _ (by simp [hp])]
      rfl

/-- C5 (amended): in `GetMonthlyBudgetProgress`, for every line item of the
budget whose category resolves, the reported per-category `spent` is the sum
of the transactions of **both** types (the query has no `Transaction.type`
filter — "category-wise monthly activity (both income and expenses)") in
that category dated within the budget's year and the given month, and the
budgeted baseline is the float conversion of the line item's precomputed
`monthly_amount`. -/
theorem c5_monthly_category_row (db : DB) (budget_id : ℕ) (month : ℤ)
    (p : MonthlyBudgetProgress)
    (hp : get_monthly_budget_progress db budget_id month = some p)
    (it : BudgetLineItem) (hit : it ∈ lineItemsOf db budget_id)
    (c : Category) (hc : lookupCategory db it.category_id = some c) :
    ∃ row ∈ p.categories, row.category_id = it.category_id ∧
      row.category_name = c.name ∧
      row.monthly_budget = roundFloat it.monthly_amount ∧
      row.spent = roundFloat (((db.transactions.filter (fun t =>
        t.category_id == it.category_id && t.transaction_date.year == p.year &&
        t.transaction_date.month == month)).map (·.amount)).sum) := by
  unfold get_monthly_budget_progress at hp
  rcases hfind : get_budget_by_id db budget_id with _ | budget
  · rw [hfind] at hp
    cases hp
  · rw [hfind] at hp
    have hp' := Option.some.inj hp
    subst hp'
    have hcid : c.id = it.category_id := by simpa using List.find?_some hc
    refine ⟨_, List.mem_map.2 ⟨it, hit, rfl⟩, rfl, ?_, rfl, ?_⟩
    · show (match lookupCategory db it.category_id with
        | some c' => c'.name
        | none => "Unknown") = c.name
      rw [hc]
    · have hrow : (db.categories.map (fun c' =>
          (c'.id, c'.name, c'.type, ((db.transactions.filter (fun t =>
            t.category_id == c'.id && t.transaction_date.year == budget.year &&
            t.transaction_date.month == month)).map (·.amount)).sum))).find?
            (fun r => r.1 == it.category_id) =
          some (c.id, c.name, c.type, ((db.transactions.filter (fun t =>
            t.category_id == c.id && t.transaction_date.year == budget.year &&
            t.transaction_date.month == month)).map (·.amount)).sum) := by
        rw [find?_map_comp]
        have hfc : db.categories.find? (fun a =>
            ((fun c' => (c'.id, c'.name, c'.type, ((db.transactions.filter (fun t =>
              t.category_id == c'.id && t.transaction_date.year == budget.year &&
              t.transaction_date.month == month)).map (·.amount)).sum)) a).1 ==
                it.category_id) = some c := hc
        rw [hfc]
        rfl
      show roundFloat (match (db.categories.map (fun c' =>
          (c'.id, c'.name, c'.type, ((db.transactions.filter (fun t =>
            t.category_id == c'.id && t.transaction_date.year == budget.year &&
            t.transaction_date.month == month)).map (·.amount)).sum))).find?
            (fun r => r.1 == it.category_id) with
        | some r => r.2.2.2
        | none => 0) = _
      rw [hrow]
      simp only [hcid]

/-- C6: in `GetDashboardData(month)`, for every line item of the active
budget whose category resolves to an INCOME or EXPENSE category, the reported
`ytd_budget` is the float conversion of the line item's `monthly_amount`
multiplied by `month` in `Decimal` arithmetic — linear accrual.  The
embedding consumes no day-of-month or calendar information at all, so the
figure is independent of how many calendar days the months contain.  (The
code recomputes `yearly_amount / 12` instead of reading the stored
`monthly_amount`; the hypothesis `hmono`, which holds for every line item of
every reachable state by the store invariant, identifies the two.) -/
theorem c6_dashboard_ytd_budget (db : DB) (month : ℤ) (dd : DashboardData)
    (hd : get_dashboard_data db month = some dd)
    (it : BudgetLineItem) (hit : it ∈ lineItemsOf db dd.budget.id)
    (hmono : it.monthly_amount = decDiv it.yearly_amount 12)
    (c : Category) (hc : lookupCategory db it.category_id = some c)
    (htype : c.type = "INCOME" ∨ c.type = "EXPENSE") :
    ∃ r ∈ dd.income_categories ++ dd.expense_categories,
      r.id = it.category_id ∧
      r.ytd_budget = roundFloat (decMul it.monthly_amount (month : ℚ)) := by
  unfold get_dashboard_data at hd
  rcases hfind : get_active_budget db with _ | active
  · rw [hfind] at hd
    cases hd
  · rw [hfind] at hd
    have hd' := Option.some.inj hd
    subst hd'
    rcases htype with htype | htype
    · refine ⟨mkDashboardCategory db active.year month it c, List.mem_append.2 (.inl ?_), rfl, ?_⟩
      · refine List.mem_filterMap.2 ⟨it, hit, ?_⟩
        rw [hc]
        simp [htype, mkDashboardCategory]
      · show roundFloat (decMul (decDiv it.yearly_amount 12) (month : ℚ)) = _
        rw [hmono]
    · refine ⟨mkDashboardCategory db active.year month it c, List.mem_append.2 (.inr ?_), rfl, ?_⟩
      · refine List.mem_filterMap.2 ⟨it, hit, ?_⟩
        rw [hc]
        simp [htype, mkDashboardCategory]
      · show roundFloat (decMul (decDiv it.yearly_amount 12) (month : ℚ)) = _
        rw [hmono]

theorem dash_filterMap_mem {db : DB} {month year : ℤ} {items : List BudgetLineItem}
    {ty : String} {r : DashboardCategory}
    (hr : r ∈ items.filterMap (fun item =>
      match lookupCategory db item.category_id with
      | some c => if c.type == ty then some (mkDashboardCategory db year month item c) else none
      | none => none)) :
    ∃ a ∈ items, ∃ c', lookupCategory db a.category_id = some c' ∧
      r = mkDashboardCategory db year month a c' := by
  rcases List.mem_filterMap.1 hr with ⟨a, ha, hFa⟩
  rcases hcat' : lookupCategory db a.category_id with _ | c'
  · rw [hcat'] at hFa
    cases hFa
  · rw [hcat'] at hFa
    have hFa' : (if (c'.type == ty) = true then
        some (mkDashboardCategory db year month a c') else none) = some r := hFa
    cases htc : (c'.type == ty) with
    | false =>
      rw [htc] at hFa'
      cases hFa'
    | true =>
      rw [htc] at hFa'
      exact ⟨a, ha, c', hcat', (Option.some.inj hFa').symm⟩

/-- C7 (amended): a line item whose category does not resolve is reported
with the explicit "Unknown" name by `GetBudgetSummary` and
`GetMonthlyBudgetProgress` (which both still succeed), but `GetDashboardData`
**omits** such a line item from both of its category lists instead of
reporting it. -/
theorem c7_unknown_category_handling (db : DB) (item : BudgetLineItem)
    (hcat : lookupCategory db item.category_id = none) :
    (∀ bid r, get_budget_summary db bid = some r → item ∈ lineItemsOf db bid →
      ∃ row ∈ r.categories_summary, row.category_id = item.category_id ∧
        row.category_name = "Unknown") ∧
    (∀ bid month p, get_monthly_budget_progress db bid month = some p →
      item ∈ lineItemsOf db bid →
      ∃ row ∈ p.categories, row.category_id = item.category_id ∧
        row.category_name = "Unknown") ∧
    (∀ month dd, get_dashboard_data db month = some dd →
      ∀ r ∈ dd.income_categories ++ dd.expense_categories,
        r.id ≠ item.category_id) := by
  refine ⟨?_, ?_, ?_⟩
  · intro bid r hr hmem
    unfold get_budget_summary at hr
    rcases hfind : get_budget_by_id db bid with _ | budget
    · rw [hfind] at hr
      cases hr
    · rw [hfind] at hr
      have hr' := Option.some.inj hr
      subst hr'
      refine ⟨_, List.mem_map.2 ⟨item, hmem, rfl⟩, rfl, ?_⟩
      show (match lookupCategory db item.category_id with
        | some c => c.name
        | none => "Unknown") = "Unknown"
      rw [hcat]
  · intro bid month p hp hmem
    unfold get_monthly_budget_progress at hp
    rcases hfind : get_budget_by_id db bid with _ | budget
    · rw [hfind] at hp
      cases hp
    · rw [hfind] at hp
      have hp' := Option.some.inj hp
      subst hp'
      refine ⟨_, List.mem_map.2 ⟨item, hmem, rfl⟩, rfl, ?_⟩
      show (match lookupCategory db item.category_id with
        | some c => c.name
        | none => "Unknown") = "Unknown"
      rw [hcat]
  · intro month dd hd r hr
    unfold get_dashboard_data at hd
    rcases hfind : get_active_budget db with _ | active
    · rw [hfind] at hd
      cases hd
    · rw [hfind] at hd
      have hd' := Option.some.inj hd
      subst hd'
      intro hid
      rcases List.mem_append.1 hr with hr | hr
      all_goals {
        rcases dash_filterMap_mem hr with ⟨a, ha, c', hcat', rfl⟩
        have hacat : a.category_id = item.category_id := hid
        rw [hacat, hcat] at hcat'
        cases hcat'
      }

/-- C8 (amended): monetary sums and differences in the aggregation results
are computed in `Decimal` arithmetic and percentage figures are converted to
float only after the decimal division and scaling are complete — **except**
`GetDashboardData`'s per-category `ytd_difference`, which is computed by
subtracting the two already-float-converted figures in floating point
(`category['ytd_budget'] - category['ytd_actual']` on Python floats). -/
theorem c8_numeric_policy (db : DB) :
    (∀ bid r, get_budget_summary db bid = some r →
      r.remaining = r.budget.total_amount - r.total_spent ∧
      ((0 : ℚ) < r.budget.total_amount →
        r.progress_percentage =
          roundFloat (decMul (decDiv r.total_spent r.budget.total_amount) 100))) ∧
    (∀ month dd, get_dashboard_data db month = some dd →
      ∀ r ∈ dd.income_categories ++ dd.expense_categories,
        r.ytd_difference = roundFloat (r.ytd_budget - r.ytd_actual)) := by
  constructor
  · intro bid r hr
    unfold get_budget_summary at hr
    rcases hfind : get_budget_by_id db bid with _ | budget
    · rw [hfind] at hr
      cases hr
    · rw [hfind] at hr
      have hr' := Option.some.inj hr
      subst hr'
      refine ⟨rfl, fun hpos => ?_⟩
      show (if (0 : ℚ) < budget.total_amount then _ else _) = _
      rw [if_pos hpos]
  · intro month dd hd r hr
    unfold get_dashboard_data at hd
    rcases hfind : get_active_budget db with _ | active
    · rw [hfind] at hd
      cases hd
    · rw [hfind] at hd
      have hd' := Option.some.inj hd
      subst hd'
      rcases List.mem_append.1 hr with hr | hr
      all_goals {
        rcases dash_filterMap_mem hr with ⟨a, ha, c', hcat', rfl⟩
        rfl
      }

theorem find?_append_of_none {α : Type} {l1 l2 : List α} {p : α → Bool}
    (h : ∀ a ∈ l1, p a = false) : (l1 ++ l2).find? p = l2.find? p := by
  induction l1 with
  | nil => rfl
  | cons x t ih =>
    rw [List.cons_append, List.find?_cons_of_neg _ (by simp [h x (List.mem_cons_self x t)])]
    exact ih (fun a ha => h a (List.mem_cons_of_mem x ha))

/-- A budget whose `total_amount` is zero gets summary `progress_percentage`
0 through the zero-denominator guard. -/
theorem summary_zero_total (db : DB) (bid : ℕ) (b : Budget)
    (hfind : get_budget_by_id db bid = some b) (htot : b.total_amount = 0) :
    ∃ r, get_budget_summary db bid = some r ∧ r.progress_percentage = 0 := by
  unfold get_budget_summary
  rw [hfind]
  refine ⟨_, rfl, ?_⟩
  show (if (0 : ℚ) < b.total_amount then _ else 0) = 0
  rw [if_neg (by rw [htot]; exact lt_irrefl 0)]

/-- C10: `create_budget` with an empty `line_items` list succeeds (with fresh
id and year against a consistent store), producing a budget with
`total_amount = 0`, `is_active = true`, and no line items; `get_budget_summary`
on that budget returns `progress_percentage = 0`. -/
theorem c10_create_empty_budget (db : DB) (bid : ℕ) (itemId : ℕ → ℕ)
    (year : ℤ) (nm : String)
    (hbid : bid ∉ db.budgets.map (·.id)) (hyear : year ∉ db.budgets.map (·.year))
    (hinv : StoreInv db) :
    ∃ b, (create_budget db bid itemId ⟨year, nm, []⟩).1 = some b ∧
      b.total_amount = 0 ∧ b.is_active = true ∧
      lineItemsOf (create_budget db bid itemId ⟨year, nm, []⟩).2 b.id = [] ∧
      ∃ r, get_budget_summary (create_budget db bid itemId ⟨year, nm, []⟩).2 b.id = some r ∧
        r.progress_percentage = 0 := by
  obtain ⟨hok, ho, ht, hm⟩ := hinv
  have hok' : commitOK { db with
      budgets := db.budgets ++ [⟨bid, year, nm, 0, true⟩]
      line_items := db.line_items ++ createItems itemId bid [] } := by
    refine ⟨?_, ?_, ?_, ?_⟩
    · show ((db.budgets ++ [(⟨bid, year, nm, 0, true⟩ : Budget)]).map (·.id)).Nodup
      rw [List.map_append]
      refine List.nodup_append.2 ⟨hok.1, by simp, fun x hx hx2 => ?_⟩
      have hxe : x = bid := by simpa using hx2
      exact hbid (hxe ▸ hx)
    · show ((db.budgets ++ [(⟨bid, year, nm, 0, true⟩ : Budget)]).map (·.year)).Nodup
      rw [List.map_append]
      refine List.nodup_append.2 ⟨hok.2.1, by simp, fun x hx hx2 => ?_⟩
      have hxe : x = year := by simpa using hx2
      exact hyear (hxe ▸ hx)
    · show ((db.line_items ++ createItems itemId bid []).map (·.id)).Nodup
      rw [show createItems itemId bid ([] : List BudgetLineItemCreate) = [] from rfl,
        List.append_nil]
      exact hok.2.2.1
    · show ((db.line_items ++ createItems itemId bid []).map
        (fun it => (it.budget_id, it.category_id))).Nodup
      rw [show createItems itemId bid ([] : List BudgetLineItemCreate) = [] from rfl,
        List.append_nil]
      exact hok.2.2.2
  refine ⟨⟨bid, year, nm, 0, true⟩, ?_, rfl, rfl, ?_, ?_⟩
  · simp only [create_budget]
    split
    case isFalse h => exact absurd hok' h
    case isTrue h => rfl
  · simp only [create_budget]
    split
    case isFalse h => exact absurd hok' h
    case isTrue h =>
      show (db.line_items ++ createItems itemId bid ([] : List BudgetLineItemCreate)).filter
        (fun it => it.budget_id == bid) = []
      rw [show createItems itemId bid ([] : List BudgetLineItemCreate) = [] from rfl,
        List.append_nil]
      exact filter_budget_nil_of_orphanFree ho hbid
  · have hfindnew : get_budget_by_id (create_budget db bid itemId ⟨year, nm, []⟩).2 bid =
        some ⟨bid, year, nm, 0, true⟩ := by
      simp only [create_budget]
      split
      case isFalse h => exact absurd hok' h
      case isTrue h =>
        show ((db.budgets ++ [(⟨bid, year, nm, 0, true⟩ : Budget)]).find?
          (fun b => b.id == bid)) = some ⟨bid, year, nm, 0, true⟩
        rw [find?_append_of_none (fun a ha => by
          have : a.id ≠ bid := fun he => hbid (he ▸ List.mem_map.2 ⟨a, ha, rfl⟩)
          simpa using this)]
        rw [List.find?_cons_of_pos _ (by simp)]
    exact summary_zero_total _ bid ⟨bid, year, nm, 0, true⟩ hfindnew rfl

/-! ## Concrete evaluations: counterexamples and witnesses

The Batteries `Rat` arithmetic operations are `@[irreducible]`; concrete
evaluation by `decide` needs them reducible for elaboration (the kernel
ignores reducibility annotations either way). -/

attribute [local semireducible] Rat.add Rat.mul Rat.sub Rat.inv

/-- A store reached by creating a 2025 budget with one 1200 line item and
then adding a 600 line item for a second category. -/
def c1db : DB :=
  applyOp (applyOp ⟨[], [], [], []⟩
    (.createBudget 1 (fun i => 100 + i) ⟨2025, "Annual", [⟨1, 1200⟩]⟩))
    (.addLineItem 7 1 ⟨2, 600⟩)

theorem c1db_reachable : Reachable c1db := by
  unfold c1db
  exact .step _ (.step _ (.init [] []))

theorem c1_total_amount_invariant_witness :
    (⟨1, 2025, "Annual", 1800, true⟩ : Budget).total_amount =
      sumYearly (lineItemsOf c1db ((⟨1, 2025, "Annual", 1800, true⟩ : Budget).id)) :=
  c1_total_amount_invariant c1db c1db_reachable _ (by decide)

/-- A store reached by creating a 2025 budget with a single line item whose
yearly amount is 100 — a quotient that does not terminate in 28 significant
digits. -/
def c2db : DB :=
  applyOp ⟨[], [], [], []⟩ (.createBudget 1 (fun i => 100 + i) ⟨2025, "Annual", [⟨1, 100⟩]⟩)

/-- C2 counterexample: in the reachable state `c2db` the single stored
`monthly_amount` is the 28-significant-digit rounding
0.08333...333 · 10^2 of 100/12, which is **not** equal to the exact quotient
100/12 — the claim's "equals yearly_amount divided by 12 using exact decimal
division" fails at `yearly_amount = 100`. -/
theorem c2_exact_division_counterexample :
    Reachable c2db ∧
    c2db.line_items.map (·.monthly_amount) =
      [(8333333333333333333333333333 : ℚ) / 10 ^ 27] ∧
    (8333333333333333333333333333 : ℚ) / 10 ^ 27 ≠ 100 / 12 := by
  refine ⟨?_, by decide, by decide⟩
  unfold c2db
  exact .step _ (.init [] [])

theorem c2_monthly_amount_context_division_witness :
    (⟨100, 1, 1, 1200, 100⟩ : BudgetLineItem).monthly_amount =
      decDiv (⟨100, 1, 1, 1200, 100⟩ : BudgetLineItem).yearly_amount 12 :=
  c2_monthly_amount_context_division c1db c1db_reachable _ (by decide)

theorem c3_unique_budget_category_witness :
    (c1db.line_items.map (fun it => (it.budget_id, it.category_id))).Nodup :=
  c3_unique_budget_category c1db c1db_reachable

/-- A store holding a 2025 budget whose single (EXPENSE-typed) category has
one INCOME-typed transaction of 50 dated 2025-03. -/
def c5db : DB :=
  applyOp ⟨[], [], [⟨1, "Rent", "EXPENSE"⟩], [⟨50, 1, 50, ⟨2025, 3⟩, "INCOME"⟩]⟩
    (.createBudget 1 (fun i => 10 + i) ⟨2025, "B", [⟨1, 1200⟩]⟩)

theorem c4_month_range_validation_witness :
    api_get_monthly_budget_progress c5db 1 13 = .error .validationError :=
  c4_month_range_validation c5db 1 13 ⟨1, 2025, "B", 1200, true⟩ (by decide) (by decide)
    (by decide)

/-- C5 counterexample: the only transaction in `c5db` is INCOME-typed, yet
`GetMonthlyBudgetProgress` reports the per-category spent for 2025-03 as 50,
while the sum over EXPENSE-typed transactions of that category, year and
month — what the claim says is reported — is 0. -/
theorem c5_expense_only_counterexample :
    (get_monthly_budget_progress c5db 1 3).map (fun p => p.categories.map (·.spent)) =
      some [50] ∧
    ((c5db.transactions.filter (fun t => t.type == "EXPENSE" &&
      t.category_id == 1 && t.transaction_date.year == 2025 &&
      t.transaction_date.month == 3)).map (·.amount)).sum = 0 := by decide

def c5progress : MonthlyBudgetProgress := (get_monthly_budget_progress c5db 1 3).get (by decide)

def c5item : BudgetLineItem := ⟨10, 1, 1, 1200, 100⟩

def c5cat : Category := ⟨1, "Rent", "EXPENSE"⟩

theorem c5_monthly_category_row_witness :
    ∃ row ∈ c5progress.categories, row.category_id = c5item.category_id ∧
      row.category_name = c5cat.name ∧
      row.monthly_budget = roundFloat c5item.monthly_amount ∧
      row.spent = roundFloat (((c5db.transactions.filter (fun t =>
        t.category_id == c5item.category_id &&
        t.transaction_date.year == c5progress.year &&
        t.transaction_date.month == 3)).map (·.amount)).sum) :=
  c5_monthly_category_row c5db 1 3 c5progress (Option.some_get _).symm c5item (by decide)
    c5cat (by decide)

/-- A store holding an active 2025 budget with a 1200 line item for an
EXPENSE category and no transactions. -/
def c6db : DB :=
  applyOp ⟨[], [], [⟨1, "Groceries", "EXPENSE"⟩], []⟩
    (.createBudget 1 (fun i => 10 + i) ⟨2025, "B", [⟨1, 1200⟩]⟩)

def c6dash : DashboardData := (get_dashboard_data c6db 6).get (by decide)

def c6item : BudgetLineItem := ⟨10, 1, 1, 1200, 100⟩

theorem c6_dashboard_ytd_budget_witness :
    ∃ r ∈ c6dash.income_categories ++ c6dash.expense_categories,
      r.id = c6item.category_id ∧
      r.ytd_budget = roundFloat (decMul c6item.monthly_amount ((6 : ℤ) : ℚ)) :=
  c6_dashboard_ytd_budget c6db 6 c6dash (Option.some_get _).symm c6item (by decide)
    (by decide) ⟨1, "Groceries", "EXPENSE"⟩ (by decide) (.inr (by decide))

/-- A store holding an active 2025 budget with a 1200 line item whose
category id 99 resolves to no category. -/
def c7db : DB :=
  applyOp ⟨[], [], [], []⟩ (.createBudget 1 (fun i => 10 + i) ⟨2025, "B", [⟨99, 1200⟩]⟩)

/-- C7 counterexample: in `c7db` the active budget has one line item whose
category does not resolve; `GetDashboardData` succeeds but omits the line
item from both category lists instead of reporting it under the "Unknown"
name. -/
theorem c7_dashboard_omission_counterexample :
    (lineItemsOf c7db 1).length = 1 ∧
    (get_dashboard_data c7db 3).map (fun d => (d.income_categories, d.expense_categories)) =
      some ([], []) := by decide

def c7item : BudgetLineItem := ⟨10, 1, 99, 1200, 100⟩

def c7summary : BudgetSummary := (get_budget_summary c7db 1).get (by decide)

def c7progress : MonthlyBudgetProgress := (get_monthly_budget_progress c7db 1 3).get (by decide)

def c7dash : DashboardData := (get_dashboard_data c7db 3).get (by decide)

theorem c7_unknown_category_handling_witness :
    (∃ row ∈ c7summary.categories_summary, row.category_id = c7item.category_id ∧
      row.category_name = "Unknown") ∧
    (∃ row ∈ c7progress.categories, row.category_id = c7item.category_id ∧
      row.category_name = "Unknown") ∧
    (∀ r ∈ c7dash.income_categories ++ c7dash.expense_categories,
      r.id ≠ c7item.category_id) := by
  have h := c7_unknown_category_handling c7db c7item (by decide)
  exact ⟨h.1 1 c7summary (Option.some_get _).symm (by decide),
    h.2.1 1 3 c7progress (Option.some_get _).symm (by decide),
    h.2.2 3 c7dash (Option.some_get _).symm⟩

/-- A store holding an active 2025 budget with yearly amount 0.60 for an
EXPENSE category (monthly 0.05, six-month linear accrual 0.30) and one
EXPENSE transaction of 0.10 in 2025-01. -/
def c8db : DB :=
  applyOp ⟨[], [], [⟨1, "Stuff", "EXPENSE"⟩], [⟨50, 1, 1/10, ⟨2025, 1⟩, "EXPENSE"⟩]⟩
    (.createBudget 1 (fun i => 10 + i) ⟨2025, "B", [⟨1, 3/5⟩]⟩)

/-- C8 counterexample: at `c8db` with month 6 the per-category decimal
figures are exactly 0.30 (`ytd_budget`) and 0.10 (`ytd_actual`), so an exact
decimal difference would be 0.20; the reported `ytd_difference` is instead
the binary64 value 7205759403792793/2^55 = 0.19999999999999998…, produced by
subtracting the float conversions — monetary difference computed in floating
point, contradicting the claim. -/
theorem c8_float_difference_counterexample :
    (get_dashboard_data c8db 6).map (fun d => d.expense_categories.map
      (fun r => (r.ytd_budget, r.ytd_actual))) =
      some [(roundFloat (3/10), roundFloat (1/10))] ∧
    (get_dashboard_data c8db 6).map (fun d => d.expense_categories.map (·.ytd_difference)) =
      some [(7205759403792793 : ℚ) / 2 ^ 55] ∧
    (7205759403792793 : ℚ) / 2 ^ 55 ≠ 3 / 10 - 1 / 10 := by decide

def c8summary : BudgetSummary := (get_budget_summary c8db 1).get (by decide)

def c8dash : DashboardData := (get_dashboard_data c8db 6).get (by decide)

theorem c8_numeric_policy_witness :
    (c8summary.remaining = c8summary.budget.total_amount - c8summary.total_spent ∧
      c8summary.progress_percentage =
        roundFloat (decMul (decDiv c8summary.total_spent c8summary.budget.total_amount) 100)) ∧
    (∀ r ∈ c8dash.income_categories ++ c8dash.expense_categories,
      r.ytd_difference = roundFloat (r.ytd_budget - r.ytd_actual)) := by
  have h1 := (c8_numeric_policy c8db).1 1 c8summary (Option.some_get _).symm
  have h2 := (c8_numeric_policy c8db).2 6 c8dash (Option.some_get _).symm
  exact ⟨⟨h1.1, h1.2 (by decide)⟩, h2⟩

theorem c9_add_line_item_none_sentinel_witness :
    add_budget_line_item ⟨[], [], [], []⟩ 5 1 ⟨1, 100⟩ = (none, (⟨[], [], [], []⟩ : DB)) ∧
    add_budget_line_item c5db 5 1 ⟨1, 100⟩ = (none, c5db) := by
  constructor
  · exact (c9_add_line_item_none_sentinel ⟨[], [], [], []⟩ 5 1 ⟨1, 100⟩).1 (by decide)
  · exact (c9_add_line_item_none_sentinel c5db 5 1 ⟨1, 100⟩).2
      ⟨⟨1, 2025, "B", 1200, true⟩, by decide, rfl⟩ ⟨⟨10, 1, 1, 1200, 100⟩, by decide, rfl, rfl⟩

theorem c10_create_empty_budget_witness :
    ∃ b, (create_budget ⟨[], [], [], []⟩ 1 (fun i => i) ⟨2025, "Empty", []⟩).1 = some b ∧
      b.total_amount = 0 ∧ b.is_active = true ∧
      lineItemsOf (create_budget ⟨[], [], [], []⟩ 1 (fun i => i) ⟨2025, "Empty", []⟩).2 b.id = [] ∧
      ∃ r, get_budget_summary
          (create_budget ⟨[], [], [], []⟩ 1 (fun i => i) ⟨2025, "Empty", []⟩).2 b.id = some r ∧
        r.progress_percentage = 0 :=
  c10_create_empty_budget ⟨[], [], [], []⟩ 1 (fun i => i) 2025 "Empty" (by decide) (by decide)
    (reachable_storeInv (.init [] []))
